import Mathlib

/-!
Verification of the sequence engine of the Arithmetic-Sequence repository
(`src/app.py`).

Real-number arithmetic of the source is embedded as exact rational
arithmetic (`ℚ`); Python integers are embedded as `ℤ`.  The two generator
functions are translated directly from `generate_arithmetic_sequence` and
`generate_geometric_sequence`; the request-handling layer of `main`
(validation, sequence generation, and the values it renders) is embedded
as `main_output`.
-/

namespace SeqApp

/-- Embedding of `generate_arithmetic_sequence(first_term, common_diff, num_terms)`
(`src/app.py` lines 3–23): returns `[]` when `num_terms <= 0`, otherwise the
list of `first_term + i * common_diff` for `i` in `range(num_terms)`. -/
def generate_arithmetic_sequence (first_term common_diff : ℚ) (num_terms : ℤ) : List ℚ :=
  if num_terms ≤ 0 then []
  else (List.range num_terms.toNat).map (fun i : ℕ => first_term + (i : ℚ) * common_diff)

/-- Embedding of `generate_geometric_sequence(first_term, common_ratio, num_terms)`
(`src/app.py` lines 25–45): returns `[]` when `num_terms <= 0`, otherwise the
list of `first_term * common_ratio ** i` for `i` in `range(num_terms)`.
Python's `r ** 0 == 1` (also for `r == 0`) matches `ℚ`'s monoid power. -/
def generate_geometric_sequence (first_term common_ratio : ℚ) (num_terms : ℤ) : List ℚ :=
  if num_terms ≤ 0 then []
  else (List.range num_terms.toNat).map (fun i : ℕ => first_term * common_ratio ^ i)

/-- The threshold `1e-10` of `abs(param_value - 1) < 1e-10` (`src/app.py`
lines 231, 271, 295), as an exact rational. -/
def ratioTol : ℚ := 1 / 10000000000

/-- The arithmetic closed-form sum `(num_terms / 2) * (2 * first_term +
(num_terms - 1) * param_value)` from `src/app.py` line 292. -/
def arithmetic_formula_sum (first_term common_diff : ℚ) (num_terms : ℤ) : ℚ :=
  ((num_terms : ℚ) / 2) * (2 * first_term + ((num_terms : ℚ) - 1) * common_diff)

/-- The geometric closed-form sum of `src/app.py` lines 295–299:
`num_terms * first_term` when `abs(ratio - 1) < 1e-10`, else
`first_term * (1 - ratio ** num_terms) / (1 - ratio)`.  The exponent is the
non-negative integer `num_terms` (the code only evaluates this after
validating `num_terms ≥ 1`). -/
def geometric_formula_sum (first_term common_ratio : ℚ) (num_terms : ℤ) : ℚ :=
  if |common_ratio - 1| < ratioTol then (num_terms : ℚ) * first_term
  else first_term * (1 - common_ratio ^ num_terms.toNat) / (1 - common_ratio)

/-- The kind of sequence selected in the UI (`sequence_type`). -/
inductive SequenceType where
  | arithmetic
  | geometric
deriving DecidableEq, Repr

/-- The sum-related values `main` renders for a valid request
(`src/app.py` lines 189–309):
* `sequence` — the generated list;
* `sn_tab_step4` — the final numeric value of the step-by-step derivation in
  the "Sum Formula (Sₙ)" tab: `num_terms * inner_calc / 2` for arithmetic
  (line 218, with `inner_calc = 2*first_term + (num_terms-1)*param_value`,
  line 211), `first_term * numerator / denominator` for geometric with
  `abs(r - 1) >= 1e-10` (lines 247–259), and `sum_sequence` in the geometric
  `abs(r - 1) < 1e-10` branch (line 235);
* `sn_tab_alt_sum` — the arithmetic tab's alternative-formula sum
  `num_terms * (first_term + last_term) / 2` (line 226); `none` for geometric;
* `sum_using_formula_metric` — the value of the metric labelled
  "Sum using Formula" (line 267: it displays `sum_sequence`, the direct sum);
* `sum_by_addition_metric` — the metric "Sum by Addition" (line 277, also
  `sum_sequence`);
* `properties_sum` — the pair (metric "Sum of Terms", caption `formula_sum`)
  of the Sequence Properties block, rendered only when `num_terms > 1`
  (lines 286–300);
* `last_term` — the metric "Last Term", rendered when `num_terms > 0`
  (lines 302–309). -/
structure SequenceOutput where
  sequence : List ℚ
  sn_tab_step4 : ℚ
  sn_tab_alt_sum : Option ℚ
  sum_using_formula_metric : ℚ
  sum_by_addition_metric : ℚ
  properties_sum : Option (ℚ × ℚ)
  last_term : Option ℚ
deriving Repr, DecidableEq

/-- Embedding of the request-handling path of `main` (`src/app.py`
lines 107–309): validation of `num_terms` (lines 109–116), dispatch on the
sequence type (lines 119–130), and the rendered sum/last-term values.
Validation failures and the empty-sequence warning are `Except.error`. -/
def main_output (sequence_type : SequenceType) (first_term param_value : ℚ)
    (num_terms : ℤ) : Except String SequenceOutput :=
  if num_terms ≤ 0 then
    .error "Number of terms must be a positive integer."
  else if num_terms > 1000 then
    .error "Number of terms cannot exceed 1000."
  else
    let sequence :=
      match sequence_type with
      | .arithmetic => generate_arithmetic_sequence first_term param_value num_terms
      | .geometric => generate_geometric_sequence first_term param_value num_terms
    if sequence.isEmpty then
      .error "No sequence generated. Please check your inputs."
    else
      let sum_sequence := sequence.sum
      .ok
        { sequence := sequence
          sn_tab_step4 :=
            match sequence_type with
            | .arithmetic =>
                (num_terms : ℚ) * (2 * first_term + ((num_terms : ℚ) - 1) * param_value) / 2
            | .geometric =>
                if |param_value - 1| < ratioTol then sum_sequence
                else first_term * (1 - param_value ^ num_terms.toNat) / (1 - param_value)
          sn_tab_alt_sum :=
            match sequence_type with
            | .arithmetic =>
                some ((num_terms : ℚ) * (first_term + sequence.getLastD 0) / 2)
            | .geometric => none
          sum_using_formula_metric := sum_sequence
          sum_by_addition_metric := sum_sequence
          properties_sum :=
            if num_terms > 1 then
              some (sum_sequence,
                match sequence_type with
                | .arithmetic => arithmetic_formula_sum first_term param_value num_terms
                | .geometric => geometric_formula_sum first_term param_value num_terms)
            else none
          last_term := if num_terms > 0 then sequence.getLast? else none }

/-! ### Helper lemmas -/

lemma range_map_arith_sum (a d : ℚ) :
    ∀ m : ℕ, ((List.range m).map (fun i : ℕ => a + (i : ℚ) * d)).sum
      = ((m : ℚ) / 2) * (2 * a + ((m : ℚ) - 1) * d) := by
  intro m
  induction m with
  | zero => simp
  | succ k ih =>
      rw [List.range_succ, List.map_append, List.sum_append]
      simp only [List.map_cons, List.map_nil, List.sum_cons, List.sum_nil]
      rw [ih]
      push_cast
      ring

lemma range_map_geom_sum (a r : ℚ) (hr : r ≠ 1) :
    ∀ m : ℕ, ((List.range m).map (fun i : ℕ => a * r ^ i)).sum
      = a * (1 - r ^ m) / (1 - r) := by
  intro m
  have h1r : 1 - r ≠ 0 := sub_ne_zero.mpr (Ne.symm hr)
  induction m with
  | zero => simp
  | succ k ih =>
      rw [List.range_succ, List.map_append, List.sum_append]
      simp only [List.map_cons, List.map_nil, List.sum_cons, List.sum_nil]
      rw [ih]
      field_simp
      ring

lemma generate_arithmetic_of_pos (a d : ℚ) (n : ℤ) (hn : 0 < n) :
    generate_arithmetic_sequence a d n
      = (List.range n.toNat).map (fun i : ℕ => a + (i : ℚ) * d) := by
  unfold generate_arithmetic_sequence
  rw [if_neg (not_le.mpr hn)]

lemma generate_geometric_of_pos (a r : ℚ) (n : ℤ) (hn : 0 < n) :
    generate_geometric_sequence a r n
      = (List.range n.toNat).map (fun i : ℕ => a * r ^ i) := by
  unfold generate_geometric_sequence
  rw [if_neg (not_le.mpr hn)]

lemma toNat_cast_rat (n : ℤ) (hn : 0 ≤ n) : ((n.toNat : ℚ)) = (n : ℚ) := by
  rw [← Int.cast_natCast, Int.toNat_of_nonneg hn]

/-! ### Claim theorems -/

/-- C1: for `1 ≤ n ≤ 1000`, `generate_arithmetic_sequence a d n` has length
exactly `n` and its element at every index `i < n` is `a + i * d`. -/
theorem arithmetic_generate_correct (a d : ℚ) (n : ℤ)
    (h1 : 1 ≤ n) (h2 : n ≤ 1000) :
    ((generate_arithmetic_sequence a d n).length : ℤ) = n ∧
    ∀ i : ℕ, (i : ℤ) < n →
      (generate_arithmetic_sequence a d n)[i]? = some (a + (i : ℚ) * d) := by
  have hpos : 0 < n := by omega
  rw [generate_arithmetic_of_pos a d n hpos]
  constructor
  · rw [List.length_map, List.length_range, Int.toNat_of_nonneg (le_of_lt hpos)]
  · intro i hi
    have hi2 : i < n.toNat := by omega
    rw [List.getElem?_map, List.getElem?_range hi2]
    rfl

theorem arithmetic_generate_correct_witness :
    ((generate_arithmetic_sequence 2 2 5).length : ℤ) = 5 ∧
    ∀ i : ℕ, (i : ℤ) < 5 →
      (generate_arithmetic_sequence 2 2 5)[i]? = some (2 + (i : ℚ) * 2) :=
  arithmetic_generate_correct 2 2 5 (by decide) (by decide)

/-- C2: for `1 ≤ n ≤ 1000`, `generate_geometric_sequence a r n` has length
exactly `n`, its element at every index `i < n` is `a * r ^ i`, and its first
element is `a` (since `r ^ 0 = 1`, also for `r = 0`). -/
theorem geometric_generate_correct (a r : ℚ) (n : ℤ)
    (h1 : 1 ≤ n) (h2 : n ≤ 1000) :
    ((generate_geometric_sequence a r n).length : ℤ) = n ∧
    (∀ i : ℕ, (i : ℤ) < n →
      (generate_geometric_sequence a r n)[i]? = some (a * r ^ i)) ∧
    (generate_geometric_sequence a r n)[0]? = some a := by
  have hpos : 0 < n := by omega
  rw [generate_geometric_of_pos a r n hpos]
  have hidx : ∀ i : ℕ, (i : ℤ) < n →
      ((List.range n.toNat).map (fun i : ℕ => a * r ^ i))[i]? = some (a * r ^ i) := by
    intro i hi
    have hi2 : i < n.toNat := by omega
    rw [List.getElem?_map, List.getElem?_range hi2]
    rfl
  refine ⟨?_, hidx, ?_⟩
  · rw [List.length_map, List.length_range, Int.toNat_of_nonneg (le_of_lt hpos)]
  · have h0 := hidx 0 (by exact_mod_cast hpos)
    rw [h0, pow_zero, mul_one]

theorem geometric_generate_correct_witness :
    ((generate_geometric_sequence 7 0 3).length : ℤ) = 3 ∧
    (∀ i : ℕ, (i : ℤ) < 3 →
      (generate_geometric_sequence 7 0 3)[i]? = some (7 * 0 ^ i)) ∧
    (generate_geometric_sequence 7 0 3)[0]? = some 7 :=
  geometric_generate_correct 7 0 3 (by decide) (by decide)

/-- C3: for every `n ≥ 0`, the direct sum of `generate_arithmetic_sequence a d n`
equals the closed form `n/2 * (2*a + (n-1)*d)` exactly (over exact arithmetic). -/
theorem arithmetic_sum_closed_form (a d : ℚ) (n : ℤ) (hn : 0 ≤ n) :
    (generate_arithmetic_sequence a d n).sum = arithmetic_formula_sum a d n := by
  rcases eq_or_lt_of_le hn with h | h
  · unfold generate_arithmetic_sequence arithmetic_formula_sum
    rw [← h]
    norm_num
  · rw [generate_arithmetic_of_pos a d n h, range_map_arith_sum]
    unfold arithmetic_formula_sum
    rw [toNat_cast_rat n hn]

theorem arithmetic_sum_closed_form_witness :
    (generate_arithmetic_sequence 2 2 5).sum = arithmetic_formula_sum 2 2 5 :=
  arithmetic_sum_closed_form 2 2 5 (by decide)

/-- C4: the geometric series sum branches on `|r - 1| < 1e-10` (value `n * a`)
versus the closed form `a * (1 - r^n) / (1 - r)`; for every `n ≥ 0` and every
`r` with `|1 - r| ≥ 1e-10` the closed form equals the direct sum of
`generate_geometric_sequence a r n`, exactly over exact arithmetic. -/
theorem geometric_sum_closed_form (a r : ℚ) (n : ℤ)
    (hn : 0 ≤ n) (hr : ratioTol ≤ |1 - r|) :
    geometric_formula_sum a r n = (generate_geometric_sequence a r n).sum := by
  have htol : (0 : ℚ) < ratioTol := by norm_num [ratioTol]
  have hr1 : r ≠ 1 := by
    intro h
    rw [h] at hr
    simp only [sub_self, abs_zero] at hr
    linarith
  have hbranch : ¬ |r - 1| < ratioTol := by
    rw [abs_sub_comm]
    exact not_lt.mpr hr
  unfold geometric_formula_sum
  rw [if_neg hbranch]
  rcases eq_or_lt_of_le hn with h | h
  · unfold generate_geometric_sequence
    rw [← h]
    norm_num
  · rw [generate_geometric_of_pos a r n h, range_map_geom_sum a r hr1]

theorem geometric_sum_closed_form_witness :
    geometric_formula_sum 1 3 4 = (generate_geometric_sequence 1 3 4).sum :=
  geometric_sum_closed_form 1 3 4 (by norm_num)
    (by rw [show (1 : ℚ) - 3 = -2 by norm_num, abs_neg, abs_two]; norm_num [ratioTol])

/-- C5: for every `n ≤ 0`, both generators return the empty sequence (no
error is possible: they are total), and its sum is `0`. -/
theorem nonpositive_terms_empty (a d r : ℚ) (n : ℤ) (hn : n ≤ 0) :
    generate_arithmetic_sequence a d n = [] ∧
    generate_geometric_sequence a r n = [] ∧
    (generate_arithmetic_sequence a d n).sum = 0 ∧
    (generate_geometric_sequence a r n).sum = 0 := by
  unfold generate_arithmetic_sequence generate_geometric_sequence
  simp [if_pos hn]

theorem nonpositive_terms_empty_witness :
    generate_arithmetic_sequence 5 3 (-2) = [] ∧
    generate_geometric_sequence 5 3 (-2) = [] ∧
    (generate_arithmetic_sequence 5 3 (-2)).sum = 0 ∧
    (generate_geometric_sequence 5 3 (-2)).sum = 0 :=
  nonpositive_terms_empty 5 3 3 (-2) (by decide)

/-- C6: every request with `num_terms > 1000` is rejected by the handler with
the validation error of `src/app.py` line 115; no sequence (not even a
truncated one) is produced, for either sequence type. -/
theorem overlong_request_rejected (t : SequenceType) (a p : ℚ) (n : ℤ)
    (hn : n > 1000) :
    main_output t a p n = .error "Number of terms cannot exceed 1000." := by
  unfold main_output
  rw [if_neg (by omega : ¬ n ≤ 0), if_pos hn]

theorem overlong_request_rejected_witness :
    main_output SequenceType.arithmetic 1 1 1001
      = .error "Number of terms cannot exceed 1000." :=
  overlong_request_rejected SequenceType.arithmetic 1 1 1001 (by decide)

lemma arith_isEmpty_false (a d : ℚ) (n : ℤ) (hn : 0 < n) :
    (generate_arithmetic_sequence a d n).isEmpty = false := by
  unfold generate_arithmetic_sequence
  rw [if_neg (not_le.mpr hn)]
  simp [List.isEmpty_iff, List.range_eq_nil]
  omega

lemma geom_isEmpty_false (a r : ℚ) (n : ℤ) (hn : 0 < n) :
    (generate_geometric_sequence a r n).isEmpty = false := by
  unfold generate_geometric_sequence
  rw [if_neg (not_le.mpr hn)]
  simp [List.isEmpty_iff, List.range_eq_nil]
  omega

/-- C7: for every valid request (`1 ≤ termCount ≤ 1000`) the output includes
two sum values a caller can cross-check: the direct-addition sum of the
generated terms, and a sum given by the closed-form formula — the Sₙ-tab
step-4 value (`src/app.py` lines 218, 259), or, for a geometric ratio within
`1e-10` of `1` and more than one term, the Sequence Properties caption
`formula_sum` (line 296); for a single term in that branch the step line
(line 235) displays a value equal to the closed form `n × a₁`. -/
theorem cross_check_sums_present (t : SequenceType) (a p : ℚ) (n : ℤ)
    (h1 : 1 ≤ n) (h2 : n ≤ 1000) :
    ∃ out, main_output t a p n = .ok out ∧
      out.sum_by_addition_metric = out.sequence.sum ∧
      (out.sn_tab_step4 =
          (match t with
           | .arithmetic => arithmetic_formula_sum a p n
           | .geometric => geometric_formula_sum a p n) ∨
        ∃ s, out.properties_sum = some (s,
          match t with
          | .arithmetic => arithmetic_formula_sum a p n
          | .geometric => geometric_formula_sum a p n)) := by
  have hn0 : ¬ n ≤ 0 := by omega
  have hn1000 : ¬ n > 1000 := by omega
  have hpos : 0 < n := by omega
  cases t with
  | arithmetic =>
      have hmain : main_output .arithmetic a p n =
          .ok { sequence := generate_arithmetic_sequence a p n
                sn_tab_step4 := (n : ℚ) * (2 * a + ((n : ℚ) - 1) * p) / 2
                sn_tab_alt_sum := some ((n : ℚ)
                  * (a + (generate_arithmetic_sequence a p n).getLastD 0) / 2)
                sum_using_formula_metric := (generate_arithmetic_sequence a p n).sum
                sum_by_addition_metric := (generate_arithmetic_sequence a p n).sum
                properties_sum := if n > 1 then
                    some ((generate_arithmetic_sequence a p n).sum,
                      arithmetic_formula_sum a p n)
                  else none
                last_term := if n > 0 then
                    (generate_arithmetic_sequence a p n).getLast?
                  else none } := by
        unfold main_output
        rw [if_neg hn0, if_neg hn1000]
        simp only [arith_isEmpty_false a p n hpos, Bool.false_eq_true, if_false]
      refine ⟨_, hmain, rfl, Or.inl ?_⟩
      show (n : ℚ) * (2 * a + ((n : ℚ) - 1) * p) / 2 = arithmetic_formula_sum a p n
      unfold arithmetic_formula_sum
      ring
  | geometric =>
      have hmain : main_output .geometric a p n =
          .ok { sequence := generate_geometric_sequence a p n
                sn_tab_step4 := if |p - 1| < ratioTol then
                    (generate_geometric_sequence a p n).sum
                  else a * (1 - p ^ n.toNat) / (1 - p)
                sn_tab_alt_sum := none
                sum_using_formula_metric := (generate_geometric_sequence a p n).sum
                sum_by_addition_metric := (generate_geometric_sequence a p n).sum
                properties_sum := if n > 1 then
                    some ((generate_geometric_sequence a p n).sum,
                      geometric_formula_sum a p n)
                  else none
                last_term := if n > 0 then
                    (generate_geometric_sequence a p n).getLast?
                  else none } := by
        unfold main_output
        rw [if_neg hn0, if_neg hn1000]
        simp only [geom_isEmpty_false a p n hpos, Bool.false_eq_true, if_false]
      by_cases hr : |p - 1| < ratioTol
      · by_cases hgt1 : n > 1
        · refine ⟨_, hmain, rfl,
            Or.inr ⟨(generate_geometric_sequence a p n).sum, ?_⟩⟩
          show (if n > 1 then
              some ((generate_geometric_sequence a p n).sum,
                geometric_formula_sum a p n)
            else none) = some ((generate_geometric_sequence a p n).sum,
              geometric_formula_sum a p n)
          rw [if_pos hgt1]
        · have hn1 : n = 1 := by omega
          refine ⟨_, hmain, rfl, Or.inl ?_⟩
          show (if |p - 1| < ratioTol then
              (generate_geometric_sequence a p n).sum
            else a * (1 - p ^ n.toNat) / (1 - p)) = geometric_formula_sum a p n
          rw [if_pos hr, hn1]
          unfold geometric_formula_sum
          rw [if_pos hr]
          unfold generate_geometric_sequence
          rw [if_neg (by norm_num : ¬ (1 : ℤ) ≤ 0)]
          simp [List.range_succ]
      · refine ⟨_, hmain, rfl, Or.inl ?_⟩
        show (if |p - 1| < ratioTol then
            (generate_geometric_sequence a p n).sum
          else a * (1 - p ^ n.toNat) / (1 - p)) = geometric_formula_sum a p n
        rw [if_neg hr]
        unfold geometric_formula_sum
        rw [if_neg hr]

theorem cross_check_sums_present_witness :
    ∃ out, main_output SequenceType.geometric 5 1 1 = .ok out ∧
      out.sum_by_addition_metric = out.sequence.sum ∧
      (out.sn_tab_step4 =
          (match SequenceType.geometric with
           | .arithmetic => arithmetic_formula_sum 5 1 1
           | .geometric => geometric_formula_sum 5 1 1) ∨
        ∃ s, out.properties_sum = some (s,
          match SequenceType.geometric with
          | .arithmetic => arithmetic_formula_sum 5 1 1
          | .geometric => geometric_formula_sum 5 1 1)) :=
  cross_check_sums_present SequenceType.geometric 5 1 1 (by decide) (by decide)

/-- C8: the generators are deterministic (and pure in this embedding):
calls with equal arguments return equal sequences. -/
theorem generators_deterministic (a1 d1 : ℚ) (n1 : ℤ) (a2 d2 : ℚ) (n2 : ℤ)
    (ha : a1 = a2) (hd : d1 = d2) (hn : n1 = n2) :
    generate_arithmetic_sequence a1 d1 n1 = generate_arithmetic_sequence a2 d2 n2 ∧
    generate_geometric_sequence a1 d1 n1 = generate_geometric_sequence a2 d2 n2 := by
  subst ha
  subst hd
  subst hn
  exact ⟨rfl, rfl⟩

theorem generators_deterministic_witness :
    generate_arithmetic_sequence 2 3 5 = generate_arithmetic_sequence 2 3 5 ∧
    generate_geometric_sequence 2 3 5 = generate_geometric_sequence 2 3 5 :=
  generators_deterministic 2 3 5 2 3 5 rfl rfl rfl

/-- C9: for every valid request (`1 ≤ n ≤ 1000`) generation terminates with a
result of exactly `n` terms — the loop body runs once per generated term, so
exactly `n.toNat` iterations, and that count is at most `1000`. -/
theorem generation_bounded (a d r : ℚ) (n : ℤ) (h1 : 1 ≤ n) (h2 : n ≤ 1000) :
    (generate_arithmetic_sequence a d n).length = n.toNat ∧
    (generate_geometric_sequence a r n).length = n.toNat ∧
    n.toNat ≤ 1000 := by
  have hpos : 0 < n := by omega
  rw [generate_arithmetic_of_pos a d n hpos, generate_geometric_of_pos a r n hpos]
  exact ⟨by simp, by simp, by omega⟩

theorem generation_bounded_witness :
    (generate_arithmetic_sequence 0 0 1000).length = (1000 : ℤ).toNat ∧
    (generate_geometric_sequence 0 0 1000).length = (1000 : ℤ).toNat ∧
    (1000 : ℤ).toNat ≤ 1000 :=
  generation_bounded 0 0 0 1000 (by decide) (by decide)

/-- C10: the generators themselves do not enforce the 1000-term bound: for
every `n > 1000` each returns a full sequence of length exactly `n`, while the
request-handling layer (`main_output`) rejects such `n` before ever calling
them. -/
theorem generators_ignore_upper_bound (a d r p q : ℚ) (t : SequenceType)
    (n : ℤ) (hn : n > 1000) :
    ((generate_arithmetic_sequence a d n).length : ℤ) = n ∧
    ((generate_geometric_sequence a r n).length : ℤ) = n ∧
    main_output t p q n = .error "Number of terms cannot exceed 1000." := by
  have hpos : 0 < n := by omega
  refine ⟨?_, ?_, ?_⟩
  · rw [generate_arithmetic_of_pos a d n hpos, List.length_map,
      List.length_range, Int.toNat_of_nonneg (le_of_lt hpos)]
  · rw [generate_geometric_of_pos a r n hpos, List.length_map,
      List.length_range, Int.toNat_of_nonneg (le_of_lt hpos)]
  · unfold main_output
    rw [if_neg (by omega : ¬ n ≤ 0), if_pos hn]

theorem generators_ignore_upper_bound_witness :
    ((generate_arithmetic_sequence 1 1 1001).length : ℤ) = 1001 ∧
    ((generate_geometric_sequence 1 1 1001).length : ℤ) = 1001 ∧
    main_output SequenceType.geometric 1 1 1001
      = .error "Number of terms cannot exceed 1000." :=
  generators_ignore_upper_bound 1 1 1 1 1 SequenceType.geometric 1001 (by decide)

end SeqApp
